/-
Verification of the Startup Lawyer backend (src/main.py together with the
schema declarations of src/schemas.py): a shallow embedding of the
template-merge operation, the generic collection-store handlers, the
diagnostic endpoint and the schema-introspection endpoint, with proofs of
the specified properties.

The persistence module (database.py: `db`, `create_document`,
`get_documents`) is imported by main.py but is not part of the sources;
those operations are modelled from the spec where so marked.
-/
import Mathlib

set_option autoImplicit false

namespace StartupLawyer

/-- Python values as they occur in the request and response dictionaries of
main.py: strings, integers, booleans, `None`, MongoDB object ids, lists and
dictionaries (dictionaries keep insertion order, as in Python). -/
inductive Value where
  | str (s : String)
  | int (n : Int)
  | bool (b : Bool)
  | none
  | oid (n : Nat)
  | list (l : List Value)
  | dict (d : List (String × Value))

/-- A Python dictionary with string keys: an insertion-ordered association
list, the representation used for records, templates and variable maps. -/
abbrev Record := List (String × Value)

/-- Python `d[key]` lookup (first binding wins; `vset` keeps keys unique in
the lists we build, matching Python dict semantics). -/
def vget {α : Type} : List (String × α) → String → Option α
  | [], _ => Option.none
  | (k, v) :: rest, key => if k = key then Option.some v else vget rest key

/-- Python `d[key] = v`: replace the value in place when the key is
present, append the binding otherwise. -/
def vset {α : Type} : List (String × α) → String → α → List (String × α)
  | [], key, v => [(key, v)]
  | (k, w) :: rest, key, v =>
      if k = key then (k, v) :: rest else (k, w) :: vset rest key v

/-- Modelled from the spec: database.py is not among the sources. The store
assigns each inserted record a fresh identifier rendered as a string; the
spec requires only that identifiers are non-empty strings distinct per
insertion, so they are modelled as an injective encoding of the insertion
counter. -/
def oidString (n : Nat) : String := String.mk (List.replicate (n + 1) 'f')

mutual

/-- Python `repr` of a value (string escaping inside reprs is not needed by
any claim and is not modelled). -/
def pyRepr : Value → String
  | .str s => "\x27" ++ s ++ "\x27"
  | .int n => toString n
  | .bool b => if b then "True" else "False"
  | .none => "None"
  | .oid n => "ObjectId(\x27" ++ oidString n ++ "\x27)"
  | .list l => "[" ++ pyReprList l ++ "]"
  | .dict d => "\x7b" ++ pyReprDict d ++ "\x7d"

/-- Comma-separated reprs of the elements of a list. -/
def pyReprList : List Value → String
  | [] => ""
  | [v] => pyRepr v
  | v :: rest => pyRepr v ++ ", " ++ pyReprList rest

/-- Comma-separated `'key': repr` entries of a dictionary. -/
def pyReprDict : List (String × Value) → String
  | [] => ""
  | [(k, v)] => "\x27" ++ k ++ "\x27: " ++ pyRepr v
  | (k, v) :: rest => "\x27" ++ k ++ "\x27: " ++ pyRepr v ++ ", " ++ pyReprDict rest

end

/-- Python `str` of a value: the string itself for strings, `str(ObjectId)`
is its hex form, `repr` otherwise (as `format(v, "")` behaves for the types
above). -/
def pyStr : Value → String
  | .str s => s
  | .oid n => oidString n
  | v => pyRepr v

/-- The two exception kinds `str.format` raises in main.py's merge:
`KeyError` for a placeholder absent from the keyword arguments, and
`ValueError` for malformed brace syntax. -/
inductive FmtErr where
  | keyError (key : String)
  | valueError (msg : String)

/-- Prepend a prefix to the result of a format computation. -/
def pre (p : String) : Except FmtErr String → Except FmtErr String
  | .ok t => .ok (p ++ t)
  | .error e => .error e

/-- The scanner states of the `str.format` model: plain text, just after a
`\x7b`, just after a `\x7d`, and inside a replacement field with the name
read so far. -/
inductive Mode where
  | text
  | sawL
  | sawR
  | field (acc : List Char)

/-- The scanner of Python `str.format(**variables)`, restricted to the
fragment main.py relies on: literal text, doubled braces `\x7b\x7b` and
`\x7d\x7d` producing literal braces, and simple replacement fields
`\x7bname\x7d` looked up among the keyword arguments. Conversion and
format-spec syntax (`!`, `:`), attribute and index access inside fields,
and automatic/positional numbering are outside the modelled fragment, and
CPython's ValueError messages are abbreviated. -/
def fmtGo (vars : Record) : List Char → Mode → Except FmtErr String
  | [], .text => .ok ""
  | [], .sawL => .error (.valueError "Single \x27\x7b\x27 encountered in format string")
  | [], .sawR => .error (.valueError "Single \x27\x7d\x27 encountered in format string")
  | [], .field _ => .error (.valueError "Single \x27\x7b\x27 encountered in format string")
  | c :: rest, .text =>
      if c = '{' then fmtGo vars rest .sawL
      else if c = '}' then fmtGo vars rest .sawR
      else pre (String.mk [c]) (fmtGo vars rest .text)
  | c :: rest, .sawL =>
      if c = '{' then pre "\x7b" (fmtGo vars rest .text)
      else if c = '}' then
        match vget vars (String.mk []) with
        | Option.some v => pre (pyStr v) (fmtGo vars rest .text)
        | Option.none => .error (.keyError (String.mk []))
      else fmtGo vars rest (.field [c])
  | c :: rest, .sawR =>
      if c = '}' then pre "\x7d" (fmtGo vars rest .text)
      else .error (.valueError "Single \x27\x7d\x27 encountered in format string")
  | c :: rest, .field acc =>
      if c = '{' then .error (.valueError "unexpected \x27\x7b\x27 in field name")
      else if c = '}' then
        match vget vars (String.mk acc) with
        | Option.some v => pre (pyStr v) (fmtGo vars rest .text)
        | Option.none => .error (.keyError (String.mk acc))
      else fmtGo vars rest (.field (acc ++ [c]))

/-- `body.format(**variables)` from main.py line 103. -/
def pyFormat (body : String) (vars : Record) : Except FmtErr String :=
  fmtGo vars body.data .text

/-- The character list contains no brace character: such text is copied
verbatim by the merge. -/
def NoBrace (l : List Char) : Prop := ∀ c ∈ l, c ≠ '{' ∧ c ≠ '}'

instance decNoBrace (l : List Char) : Decidable (NoBrace l) :=
  List.decidableBAll _ l

/-- Field names on which the modelled format fragment agrees with CPython:
nonempty, free of brace, conversion, format-spec and access syntax, and
not a purely numeric (positional) index. -/
def SimpleField (l : List Char) : Prop :=
  l ≠ [] ∧ (∀ c ∈ l, c ∉ ['{', '}', ':', '!', '.', '[', ']']) ∧ ¬ ∀ c ∈ l, c.isDigit

instance decSimpleField (l : List Char) : Decidable (SimpleField l) :=
  instDecidableAnd

theorem SimpleField.noBrace {l : List Char} (h : SimpleField l) : NoBrace l := by
  intro c hc
  have h2 := h.2.1 c hc
  simp only [List.mem_cons, List.mem_singleton, not_or] at h2
  exact ⟨h2.1, h2.2.1⟩

/-- Modelled from the spec: the schemaless collection store behind
database.py (not among the sources). `counter` is the fresh-id supply;
`collections` maps each collection name to its records in insertion
order. -/
structure DBData where
  counter : Nat
  collections : List (String × List Record)

/-- Modelled from the spec: the process-wide store connection, which may be
absent (the process starts even when the store is unreachable). -/
structure Store where
  db : Option DBData

/-- Append a record to the named collection, creating the collection when
it does not exist yet. -/
def collInsert : List (String × List Record) → String → Record → List (String × List Record)
  | [], coll, rec => [(coll, [rec])]
  | (c, recs) :: rest, coll, rec =>
      if c = coll then (c, recs ++ [rec]) :: rest
      else (c, recs) :: collInsert rest coll rec

/-- Modelled from the spec: `create_document(collection, record)` of
database.py inserts the record into the named collection, stamping it with
a fresh store-assigned `_id`, and returns the new identifier as a string;
it fails with a StoreError when the connection is unavailable. -/
def create_document (s : Store) (coll : String) (rec : Record) :
    Except String (String × Store) :=
  match s.db with
  | Option.none => .error "Database not connected"
  | Option.some d =>
      .ok (oidString d.counter,
        ⟨Option.some ⟨d.counter + 1,
          collInsert d.collections coll (("_id", Value.oid d.counter) :: rec)⟩⟩)

/-- Modelled from the spec: `get_documents(collection, limit)` of
database.py returns up to `limit` records of the named collection in
insertion order, failing with a StoreError when the connection is
unavailable. -/
def get_documents (s : Store) (coll : String) (limit : Nat) :
    Except String (List Record) :=
  match s.db with
  | Option.none => .error "Database not connected"
  | Option.some d => .ok (((vget d.collections coll).getD []).take limit)

/-- The records currently stored in a collection, in insertion order. -/
def collOf (s : Store) (coll : String) : List Record :=
  match s.db with
  | Option.none => []
  | Option.some d => (vget d.collections coll).getD []

/-- An HTTPException as raised by the handlers: status code and detail. -/
structure HttpError where
  status : Nat
  detail : String

/-- The success payload of POST /api/generate. -/
structure GenResponse where
  id : String
  content : String

/-- The Python type name of a value, as it appears in AttributeError
messages. -/
def pyTypeName : Value → String
  | .str _ => "str"
  | .int _ => "int"
  | .bool _ => "bool"
  | .none => "NoneType"
  | .oid _ => "ObjectId"
  | .list _ => "list"
  | .dict _ => "dict"

/-- POST /api/generate (main.py lines 96-116): merge the variables into the
template body (`template.get("body", "")`) and persist the result as a
Document in the "document" collection. A KeyError from the merge becomes a
400 naming the missing variable; any other failure becomes a 400 carrying
its description. The second component is the store after the call. -/
def generate_document (s : Store) (template : Record) (vars : Record) :
    Except HttpError GenResponse × Store :=
  match (vget template "body").getD (.str "") with
  | .str body =>
      match pyFormat body vars with
      | .error (.keyError k) =>
          (.error ⟨400, "Missing variable: \x27" ++ k ++ "\x27"⟩, s)
      | .error (.valueError m) => (.error ⟨400, m⟩, s)
      | .ok filled =>
          match create_document s "document"
              [("title", (vget template "name").getD (.str "Generated Document")),
               ("category", (vget template "category").getD (.str "contract")),
               ("content", .str filled),
               ("template_id", Value.none),
               ("variables", .dict vars)] with
          | .error msg => (.error ⟨400, msg⟩, s)
          | .ok (newId, s2) => (.ok ⟨newId, filled⟩, s2)
  | v =>
      (.error ⟨400, "\x27" ++ pyTypeName v ++ "\x27 object has no attribute \x27format\x27"⟩, s)

/-- POST /api/collections/(collection) (main.py lines 123-129): generic
create; returns the new id, or a 400 carrying the failure description. -/
def create_item (s : Store) (collection : String) (data : Record) :
    Except HttpError String × Store :=
  match create_document s collection data with
  | .error msg => (.error ⟨400, msg⟩, s)
  | .ok (newId, s2) => (.ok newId, s2)

/-- GET /api/collections/(collection) (main.py lines 131-142): generic
list; the limit query parameter defaults to 50 when absent, each returned
record's `_id` is rendered as a string (`str(d.get("_id"))`), and a store
failure becomes a 400 carrying its description. -/
def list_items (s : Store) (collection : String) (limit : Option Nat) :
    Except HttpError (List Record) :=
  match get_documents s collection (limit.getD 50) with
  | .error msg => .error ⟨400, msg⟩
  | .ok docs =>
      .ok (docs.map fun d => vset d "_id" (.str (pyStr ((vget d "_id").getD .none))))

/-- The configuration environment: DATABASE_URL and DATABASE_NAME, each
possibly unset. -/
structure Env where
  database_url : Option String
  database_name : Option String

/-- The store states the diagnostic endpoint distinguishes: the database
module fails to import or errors, `db` is None, or `db` is connected and
enumerating collection names either succeeds or raises. -/
inductive DbState where
  | importError (msg : String)
  | notInitialized
  | connected (dbName : String) (enum : Except String (List String))

/-- The diagnostic payload of GET /test. -/
structure TestResponse where
  backend : String
  database : String
  database_url : String
  database_name : String
  connection_status : String
  collections : List String

/-- Python `s[:n]`. -/
def takeStr (n : Nat) (s : String) : String := String.mk (s.data.take n)

/-- `"✅ Set" if os.getenv(...) else "❌ Not Set"`. -/
def setFlag (o : Option String) : String :=
  if o.isSome then "✅ Set" else "❌ Not Set"

/-- GET /test (main.py lines 26-56): builds the diagnostic response,
swallowing every failure into descriptive status text; the final two
assignments overwrite database_url and database_name from the environment
unconditionally. -/
def test_database (env : Env) (st : DbState) : TestResponse :=
  let r0 : TestResponse :=
    { backend := "✅ Running", database := "❌ Not Available",
      database_url := "None", database_name := "None",
      connection_status := "Not Connected", collections := [] }
  let r1 :=
    match st with
    | .importError msg =>
        { r0 with database := "❌ Error: " ++ takeStr 50 msg }
    | .notInitialized =>
        { r0 with database := "⚠️  Available but not initialized" }
    | .connected dbName enum =>
        let r :=
          { r0 with database := "✅ Connected & Working",
                    database_url := setFlag env.database_url,
                    database_name := dbName,
                    connection_status := "Connected" }
        match enum with
        | .ok names => { r with collections := names.take 10 }
        | .error e =>
            { r with database := "⚠️  Connected but Error: " ++ takeStr 50 e }
  { r1 with database_url := setFlag env.database_url,
            database_name := setFlag env.database_name }

/-- The five schema declarations of src/schemas.py: each class name paired
with its fields, each field paired with the rendering of its annotation
(`str(field.annotation)`). -/
def schemaModels : List (String × List (String × String)) :=
  [("Client",
    [("name", "<class \x27str\x27>"),
     ("email", "typing.Optional[pydantic.networks.EmailStr]"),
     ("phone", "typing.Optional[str]"),
     ("company_type", "typing.Optional[str]"),
     ("jurisdiction", "typing.Optional[str]"),
     ("founders", "typing.Optional[typing.List[typing.Dict]]")]),
   ("Matter",
    [("client_id", "<class \x27str\x27>"),
     ("title", "<class \x27str\x27>"),
     ("status", "<class \x27str\x27>"),
     ("description", "typing.Optional[str]"),
     ("tags", "typing.Optional[typing.List[str]]")]),
   ("DocumentTemplate",
    [("name", "<class \x27str\x27>"),
     ("category", "<class \x27str\x27>"),
     ("variables", "typing.List[str]"),
     ("body", "<class \x27str\x27>")]),
   ("Document",
    [("client_id", "typing.Optional[str]"),
     ("matter_id", "typing.Optional[str]"),
     ("title", "<class \x27str\x27>"),
     ("category", "<class \x27str\x27>"),
     ("content", "<class \x27str\x27>"),
     ("template_id", "typing.Optional[str]"),
     ("variables", "typing.Optional[typing.Dict[str, str]]")]),
   ("Task",
    [("client_id", "typing.Optional[str]"),
     ("matter_id", "typing.Optional[str]"),
     ("title", "<class \x27str\x27>"),
     ("status", "<class \x27str\x27>"),
     ("due_date", "typing.Optional[datetime.date]"),
     ("assignee", "typing.Optional[str]"),
     ("notes", "typing.Optional[str]")])]

/-- One entry of the /schema payload. -/
structure CollectionInfo where
  name : String
  fields : List (String × String)

/-- The /schema payload: either the collections list or an error object;
both are returned as an ordinary 200 payload, never as an HTTP failure. -/
inductive SchemaResult where
  | ok (collections : List CollectionInfo)
  | err (error : String)

/-- Python `s.lower()` (the class names are ASCII). -/
def pyLower (s : String) : String := String.mk (s.data.map Char.toLower)

/-- `model_info` of main.py lines 149-153: lowercase class name plus the
field-to-descriptor mapping. -/
def model_info (m : String × List (String × String)) : CollectionInfo :=
  ⟨pyLower m.1, m.2⟩

/-- GET /schema (main.py lines 145-164); the parameter is the outcome of
importing and introspecting the schema declarations, which the handler
wraps in try/except. -/
def schema_overview (intro : Except String Unit) : SchemaResult :=
  match intro with
  | .ok _ => .ok (schemaModels.map model_info)
  | .error e => .err e

/-- The hardcoded starter templates of GET /api/templates/defaults
(main.py lines 60-90). -/
def default_templates : List Record :=
  [[("name", .str "Mutual NDA"),
    ("category", .str "contract"),
    ("variables", .list [.str "party_a_name", .str "party_b_name",
                         .str "effective_date", .str "jurisdiction"]),
    ("body", .str ("This Mutual Non-Disclosure Agreement (the \"Agreement\") is made effective on \x7beffective_date\x7d between \x7bparty_a_name\x7d and \x7bparty_b_name\x7d. Each party agrees to hold Confidential Information in strict confidence and not to disclose it to any third party... Governing law: \x7bjurisdiction\x7d."))],
   [("name", .str "Advisor Agreement"),
    ("category", .str "corporate"),
    ("variables", .list [.str "company_name", .str "advisor_name",
                         .str "equity_percent", .str "vesting_months"]),
    ("body", .str ("This Advisor Agreement is entered into by and between \x7bcompany_name\x7d and \x7badvisor_name\x7d. Compensation shall be equity equal to \x7bequity_percent\x7d% vesting over \x7bvesting_months\x7d months..."))],
   [("name", .str "IP Assignment"),
    ("category", .str "ip"),
    ("variables", .list [.str "assignor_name", .str "assignee_company",
                         .str "effective_date"]),
    ("body", .str ("For good and valuable consideration, \x7bassignor_name\x7d hereby assigns to \x7bassignee_company\x7d all right, title, and interest in and to the Assigned Inventions effective \x7beffective_date\x7d..."))]]

/-- The GET /api/templates/defaults route: it takes no input and touches
no store state; the store parameter records that the response is the same
whatever the store looks like. -/
def default_templates_route (_s : Store) : List Record :=
  default_templates

/-- The NDA scenario template of the spec. -/
def ndaTemplate : Record :=
  [("name", .str "NDA"), ("category", .str "contract"),
   ("body", .str "Agreement between \x7bparty_a_name\x7d and \x7bparty_b_name\x7d.")]

/-- The NDA scenario variables. -/
def ndaVars : Record :=
  [("party_a_name", .str "Acme"), ("party_b_name", .str "Beta")]

/-- A connected store holding no records yet, used to instantiate theorems
at concrete inputs. -/
def emptyStore : Store := ⟨Option.some ⟨0, []⟩⟩

/-- The Document record the generate handler persists (main.py lines
104-110), before the store stamps it with its `_id`. -/
def generatedDoc (template vars : Record) (filled : String) : Record :=
  [("title", (vget template "name").getD (.str "Generated Document")),
   ("category", (vget template "category").getD (.str "contract")),
   ("content", .str filled),
   ("template_id", Value.none),
   ("variables", .dict vars)]

/-- A template that itself carries a template_id field, for instantiating
the persistence theorems. -/
def c9template : Record :=
  [("template_id", .str "T-42"), ("name", .str "X"), ("body", .str "hi")]

/-- A connected store already holding one client record, for instantiating
the list theorems. -/
def storeWithDoc : Store :=
  ⟨Option.some ⟨1, [("client", [[("_id", Value.oid 0), ("name", Value.str "Acme")]])]⟩⟩

/-! ### Lemmas about the merge scanner -/

theorem pre_ok (p t : String) : pre p (.ok t) = .ok (p ++ t) := rfl

theorem pre_error (p : String) (e : FmtErr) : pre p (.error e) = .error e := rfl

theorem pre_empty (x : Except FmtErr String) : pre "" x = x := by
  cases x <;> rfl

theorem pre_pre (p q : String) (x : Except FmtErr String) :
    pre p (pre q x) = pre (p ++ q) x := by
  cases x with
  | ok t => simp [pre, String.append_assoc]
  | error e => rfl

theorem pre_eq_error {p : String} {x : Except FmtErr String} {e : FmtErr}
    (h : pre p x = .error e) : x = .error e := by
  cases x with
  | ok t => exact absurd h (by simp [pre])
  | error e2 => simpa [pre] using h

theorem string_mk_append (a b : List Char) :
    String.mk a ++ String.mk b = String.mk (a ++ b) := rfl

theorem NoBrace.head {c : Char} {l : List Char} (h : NoBrace (c :: l)) :
    c ≠ '{' ∧ c ≠ '}' := h c (List.mem_cons_self c l)

theorem NoBrace.tail {c : Char} {l : List Char} (h : NoBrace (c :: l)) : NoBrace l :=
  fun x hx => h x (List.mem_cons_of_mem c hx)

/-- Brace-free text is copied verbatim by the scanner. -/
theorem fmtGo_copy (vars : Record) (l : List Char) :
    ∀ rest : List Char, NoBrace l →
    fmtGo vars (l ++ rest) .text = pre (String.mk l) (fmtGo vars rest .text) := by
  induction l with
  | nil =>
      intro rest _
      rw [List.nil_append]
      exact (pre_empty _).symm
  | cons c cs ih =>
      intro rest h
      rw [List.cons_append]
      simp only [fmtGo]
      rw [if_neg h.head.1, if_neg h.head.2, ih rest h.tail, pre_pre, string_mk_append]
      rfl

/-- Scanning a brace-free field name inside a replacement field
accumulates it and resolves the full name at the closing brace. -/
theorem fmtGo_field (vars : Record) (nm : List Char) :
    ∀ (acc rest : List Char), NoBrace nm →
    fmtGo vars (nm ++ '}' :: rest) (.field acc)
      = match vget vars (String.mk (acc ++ nm)) with
        | Option.some v => pre (pyStr v) (fmtGo vars rest .text)
        | Option.none => .error (.keyError (String.mk (acc ++ nm))) := by
  induction nm with
  | nil =>
      intro acc rest _
      rw [List.nil_append, List.append_nil]
      simp only [fmtGo]
      simp
  | cons c cs ih =>
      intro acc rest h
      rw [List.cons_append]
      simp only [fmtGo]
      rw [if_neg h.head.1, if_neg h.head.2, ih (acc ++ [c]) rest h.tail,
        ← List.append_cons]

/-- A replacement field with a brace-free name resolves to the variable's
textual value, or to a KeyError naming the field. -/
theorem fmtGo_placeholder (vars : Record) (nm rest : List Char) (h : NoBrace nm) :
    fmtGo vars ('{' :: (nm ++ '}' :: rest)) .text
      = match vget vars (String.mk nm) with
        | Option.some v => pre (pyStr v) (fmtGo vars rest .text)
        | Option.none => .error (.keyError (String.mk nm)) := by
  have step1 : fmtGo vars ('{' :: (nm ++ '}' :: rest)) .text
      = fmtGo vars (nm ++ '}' :: rest) .sawL := by
    simp only [fmtGo]
    simp
  rw [step1]
  cases nm with
  | nil =>
      rw [List.nil_append]
      simp only [fmtGo]
      simp
  | cons c cs =>
      rw [List.cons_append]
      simp only [fmtGo]
      rw [if_neg h.head.1, if_neg h.head.2, fmtGo_field vars cs [c] rest h.tail]
      rfl

/-- When the scanner fails with a KeyError, the named key is absent from
the variable mapping. -/
theorem fmtGo_keyError_missing (vars : Record) :
    ∀ (l : List Char) (m : Mode) (k : String),
      fmtGo vars l m = .error (.keyError k) → vget vars k = Option.none := by
  intro l
  induction l with
  | nil =>
      intro m k h
      cases m <;> simp [fmtGo] at h
  | cons c rest ih =>
      intro m k h
      cases m with
      | text =>
          simp only [fmtGo] at h
          by_cases h1 : c = '{'
          · rw [if_pos h1] at h; exact ih _ _ h
          · rw [if_neg h1] at h
            by_cases h2 : c = '}'
            · rw [if_pos h2] at h; exact ih _ _ h
            · rw [if_neg h2] at h; exact ih _ _ (pre_eq_error h)
      | sawL =>
          simp only [fmtGo] at h
          by_cases h1 : c = '{'
          · rw [if_pos h1] at h; exact ih _ _ (pre_eq_error h)
          · rw [if_neg h1] at h
            by_cases h2 : c = '}'
            · rw [if_pos h2] at h
              split at h
              · exact ih _ _ (pre_eq_error h)
              · rename_i heq
                cases h
                exact heq
            · rw [if_neg h2] at h; exact ih _ _ h
      | sawR =>
          simp only [fmtGo] at h
          by_cases h1 : c = '}'
          · rw [if_pos h1] at h; exact ih _ _ (pre_eq_error h)
          · rw [if_neg h1] at h; cases h
      | field acc =>
          simp only [fmtGo] at h
          by_cases h1 : c = '{'
          · rw [if_pos h1] at h; cases h
          · rw [if_neg h1] at h
            by_cases h2 : c = '}'
            · rw [if_pos h2] at h
              split at h
              · exact ih _ _ (pre_eq_error h)
              · rename_i heq
                cases h
                exact heq
            · rw [if_neg h2] at h; exact ih _ _ h

/-! ### Lemmas about dictionaries, the store and identifiers -/

theorem vget_vset_self {α : Type} (l : List (String × α)) (k : String) (v : α) :
    vget (vset l k v) k = Option.some v := by
  induction l with
  | nil => simp [vget, vset]
  | cons p rest ih =>
      obtain ⟨k1, w⟩ := p
      by_cases h : k1 = k
      · subst h; simp [vset, vget]
      · simp [vset, vget, h, ih]

theorem collOf_collInsert (cols : List (String × List Record)) (c : String) (r : Record) :
    (vget (collInsert cols c r) c).getD [] = (vget cols c).getD [] ++ [r] := by
  induction cols with
  | nil => simp [collInsert, vget]
  | cons p rest ih =>
      obtain ⟨k, recs⟩ := p
      by_cases h : k = c
      · subst h; simp [collInsert, vget]
      · simp [collInsert, vget, h, ih]

theorem oidString_length (n : Nat) : (oidString n).length = n + 1 := by
  simp [oidString, String.length]

theorem oidString_ne_empty (n : Nat) : oidString n ≠ "" := by
  intro h
  have h2 := congrArg String.length h
  rw [oidString_length] at h2
  simp [String.length] at h2

theorem oidString_injective {a b : Nat} (h : oidString a = oidString b) : a = b := by
  have h2 := congrArg String.length h
  rw [oidString_length, oidString_length] at h2
  omega

theorem string_mk_data (s : String) : String.mk s.data = s := rfl

/-- Brace-free text alone formats to itself. -/
theorem fmtGo_copy_nil (vars : Record) (l : List Char) (h : NoBrace l) :
    fmtGo vars l .text = .ok (String.mk l) := by
  have hc := fmtGo_copy vars l [] h
  rw [List.append_nil] at hc
  rw [hc]
  show Except.ok (String.mk l ++ "") = _
  congr 1
  exact congrArg String.mk (List.append_nil l)

/-- A present replacement field substitutes the variable's textual
value. -/
theorem fmtGo_placeholder_present (vars : Record) (nm rest : List Char) (v : Value)
    (h : NoBrace nm) (hv : vget vars (String.mk nm) = Option.some v) :
    fmtGo vars ('{' :: (nm ++ '}' :: rest)) .text
      = pre (pyStr v) (fmtGo vars rest .text) := by
  rw [fmtGo_placeholder vars nm rest h, hv]

/-- A successful generate-document call, computed: the filled text comes
back with the fresh id and the Document is appended to the "document"
collection. -/
theorem generate_document_eq {s : Store} {d : DBData} (template vars : Record)
    {body filled : String}
    (hdb : s.db = Option.some d)
    (hb : (vget template "body").getD (.str "") = .str body)
    (hf : pyFormat body vars = .ok filled) :
    generate_document s template vars
      = (.ok ⟨oidString d.counter, filled⟩,
         ⟨Option.some ⟨d.counter + 1,
            collInsert d.collections "document"
              (("_id", Value.oid d.counter) :: generatedDoc template vars filled)⟩⟩) := by
  simp only [generate_document, hb, hf, create_document, hdb, generatedDoc]

/-- Inversion of a successful generate-document call. -/
theorem generate_document_ok_inv {s : Store} {template vars : Record}
    {resp : GenResponse} {s2 : Store}
    (h : generate_document s template vars = (.ok resp, s2)) :
    ∃ (d : DBData) (body filled : String),
      s.db = Option.some d
      ∧ (vget template "body").getD (.str "") = .str body
      ∧ pyFormat body vars = .ok filled
      ∧ resp = ⟨oidString d.counter, filled⟩
      ∧ s2 = ⟨Option.some ⟨d.counter + 1,
            collInsert d.collections "document"
              (("_id", Value.oid d.counter) :: generatedDoc template vars filled)⟩⟩ := by
  unfold generate_document at h
  split at h
  · rename_i body hbody
    split at h
    · exact absurd h (by simp)
    · exact absurd h (by simp)
    · rename_i filled hf
      split at h
      · exact absurd h (by simp)
      · rename_i newId s2x heq
        unfold create_document at heq
        split at heq
        · exact absurd heq (by simp)
        · rename_i d hdb
          rw [Except.ok.injEq, Prod.mk.injEq] at heq
          rw [Prod.mk.injEq, Except.ok.injEq] at h
          obtain ⟨hid, hstore⟩ := heq
          obtain ⟨hresp, hs2⟩ := h
          refine ⟨d, body, filled, hdb, hbody, hf, ?_, ?_⟩
          · rw [← hresp, ← hid]
          · rw [← hs2, ← hstore]
            rfl
  · exact absurd h (by simp)

/-! ### Claim theorems -/

/-- C3: for every template body containing no placeholders (no brace
characters) and every variable mapping, including the empty one, the merge
returns the body unchanged. -/
theorem merge_no_placeholders_identity (body : String) (vars : Record)
    (h : NoBrace body.data) : pyFormat body vars = .ok body := by
  simp only [pyFormat]
  rw [fmtGo_copy_nil vars body.data h, string_mk_data]

/-- Witness for C3: a concrete brace-free body and a nonempty mapping. -/
theorem merge_no_placeholders_identity_witness :
    NoBrace ("Plain text body.".data)
    ∧ pyFormat "Plain text body." [("x", .str "1")] = .ok "Plain text body." :=
  ⟨by decide,
   merge_no_placeholders_identity "Plain text body." [("x", .str "1")] (by decide)⟩

/-- C2: a body made of brace-free text around two placeholders merges to
the same text with each placeholder replaced by the corresponding
variable's textual value and is otherwise unchanged; in particular the NDA
scenario produces content "Agreement between Acme and Beta." and a
non-empty id. -/
theorem merge_two_placeholders_substitution :
    (∀ (p1 p2 p3 a b : String) (va vb : Value) (vars : Record),
      NoBrace p1.data → NoBrace p2.data → NoBrace p3.data →
      SimpleField a.data → SimpleField b.data →
      vget vars a = Option.some va → vget vars b = Option.some vb →
      pyFormat (p1 ++ "\x7b" ++ a ++ "\x7d" ++ p2 ++ "\x7b" ++ b ++ "\x7d" ++ p3) vars
        = .ok (p1 ++ pyStr va ++ p2 ++ pyStr vb ++ p3))
    ∧ (generate_document emptyStore ndaTemplate ndaVars).1
        = .ok ⟨oidString 0, "Agreement between Acme and Beta."⟩
    ∧ oidString 0 ≠ "" := by
  refine ⟨?_, rfl, oidString_ne_empty 0⟩
  intro p1 p2 p3 a b va vb vars hp1 hp2 hp3 ha hb hva hvb
  have hlb : ("\x7b" : String).data = ['{'] := rfl
  have hrb : ("\x7d" : String).data = ['}'] := rfl
  have hbody : (p1 ++ "\x7b" ++ a ++ "\x7d" ++ p2 ++ "\x7b" ++ b ++ "\x7d" ++ p3).data
      = p1.data ++ '{' :: (a.data ++ '}' :: (p2.data ++ '{' :: (b.data ++ '}' :: p3.data))) := by
    simp [String.data_append, hlb, hrb, List.append_assoc]
  simp only [pyFormat]
  rw [hbody]
  rw [fmtGo_copy vars p1.data _ hp1]
  rw [fmtGo_placeholder_present vars a.data _ va ha.noBrace hva]
  rw [fmtGo_copy vars p2.data _ hp2]
  rw [fmtGo_placeholder_present vars b.data _ vb hb.noBrace hvb]
  rw [fmtGo_copy_nil vars p3.data hp3]
  simp only [pre_pre, pre_ok]
  simp [string_mk_data, String.append_assoc]

/-- Witness for C2: the NDA body in placeholder form merges to the
specified text. -/
theorem merge_two_placeholders_substitution_witness :
    NoBrace ("Agreement between ".data)
    ∧ NoBrace (" and ".data)
    ∧ NoBrace (".".data)
    ∧ SimpleField ("party_a_name".data)
    ∧ SimpleField ("party_b_name".data)
    ∧ vget ndaVars "party_a_name" = Option.some (.str "Acme")
    ∧ vget ndaVars "party_b_name" = Option.some (.str "Beta")
    ∧ pyFormat ("Agreement between " ++ "\x7b" ++ "party_a_name" ++ "\x7d" ++ " and "
        ++ "\x7b" ++ "party_b_name" ++ "\x7d" ++ ".") ndaVars
        = .ok ("Agreement between " ++ pyStr (.str "Acme") ++ " and "
            ++ pyStr (.str "Beta") ++ ".") :=
  ⟨by decide, by decide, by decide, by decide, by decide, rfl, rfl,
   merge_two_placeholders_substitution.1 "Agreement between " " and " "."
     "party_a_name" "party_b_name" (.str "Acme") (.str "Beta") ndaVars
     (by decide) (by decide) (by decide) (by decide) (by decide) rfl rfl⟩

/-- C1 (amended): whenever the merge of the template's body raises a
missing-key error on key k (the first placeholder of the body absent from
the mapping), the generate-document call fails with HTTP 400, the detail
string "Missing variable: 'k'" names k, k is indeed absent from the
mapping, and the store is left exactly as it was, so no Document is
persisted. -/
theorem generate_missing_variable_400 (s : Store) (template vars : Record)
    (body k : String)
    (hb : (vget template "body").getD (.str "") = .str body)
    (hf : pyFormat body vars = .error (.keyError k)) :
    generate_document s template vars
        = (.error ⟨400, "Missing variable: \x27" ++ k ++ "\x27"⟩, s)
      ∧ vget vars k = Option.none
      ∧ k.data <:+: ("Missing variable: \x27" ++ k ++ "\x27").data := by
  refine ⟨?_, fmtGo_keyError_missing vars body.data .text k hf, ?_⟩
  · simp only [generate_document, hb, hf]
  · exact ⟨("Missing variable: \x27").data, ("\x27").data, by simp [String.data_append]⟩

/-- Witness for C1 (amended): one missing placeholder, named in the 400
detail, with the store untouched. -/
theorem generate_missing_variable_400_witness :
    (vget [("body", Value.str "Hello \x7bwho\x7d")] "body").getD (.str "")
        = .str "Hello \x7bwho\x7d"
    ∧ pyFormat "Hello \x7bwho\x7d" [] = .error (.keyError "who")
    ∧ (generate_document emptyStore [("body", Value.str "Hello \x7bwho\x7d")] []
        = (.error ⟨400, "Missing variable: \x27" ++ "who" ++ "\x27"⟩, emptyStore)
      ∧ vget ([] : Record) "who" = Option.none
      ∧ "who".data <:+: ("Missing variable: \x27" ++ "who" ++ "\x27").data) :=
  ⟨rfl, rfl,
   generate_missing_variable_400 emptyStore [("body", Value.str "Hello \x7bwho\x7d")] []
     "Hello \x7bwho\x7d" "who" rfl rfl⟩

/-- C1 counterexample: for the body with the two placeholders qqq and zzz
and the empty mapping, the mapping lacks zzz and the body contains the
placeholder zzz, yet the 400 detail is "Missing variable: 'qqq'", which
does not mention zzz; the store is still untouched. -/
theorem generate_missing_variable_counterexample :
    ("\x7bzzz\x7d").data <:+: ("\x7bqqq\x7d\x7bzzz\x7d").data
    ∧ vget ([] : Record) "zzz" = Option.none
    ∧ (generate_document emptyStore [("body", .str "\x7bqqq\x7d\x7bzzz\x7d")] []).1
        = .error ⟨400, "Missing variable: \x27qqq\x27"⟩
    ∧ ¬ ("zzz".data <:+: ("Missing variable: \x27qqq\x27").data)
    ∧ (generate_document emptyStore [("body", .str "\x7bqqq\x7d\x7bzzz\x7d")] []).2
        = emptyStore :=
  ⟨by decide, rfl, rfl, by decide, rfl⟩


/-- C9: every successful generate-document call appends to the "document"
collection a record whose template_id field is None, whatever template
object was supplied (in particular one carrying its own template_id
field). -/
theorem generate_document_template_id_none (s : Store) (template vars : Record)
    (resp : GenResponse) (s2 : Store)
    (h : generate_document s template vars = (.ok resp, s2)) :
    ∃ doc : Record,
      collOf s2 "document" = collOf s "document" ++ [doc]
      ∧ vget doc "template_id" = Option.some Value.none := by
  obtain ⟨d, body, filled, hdb, hb, hf, hresp, hs2⟩ := generate_document_ok_inv h
  refine ⟨("_id", Value.oid d.counter) :: generatedDoc template vars filled, ?_, rfl⟩
  subst hs2
  simp only [collOf, hdb]
  exact collOf_collInsert d.collections "document" _

/-- Witness for C9: a template carrying its own template_id field still
yields a persisted record with template_id None. -/
theorem generate_document_template_id_none_witness :
    generate_document emptyStore c9template []
        = (.ok ⟨oidString 0, "hi"⟩, (generate_document emptyStore c9template []).2)
    ∧ ∃ doc : Record,
        collOf (generate_document emptyStore c9template []).2 "document"
            = collOf emptyStore "document" ++ [doc]
        ∧ vget doc "template_id" = Option.some Value.none :=
  ⟨rfl,
   generate_document_template_id_none emptyStore c9template []
     ⟨oidString 0, "hi"⟩ (generate_document emptyStore c9template []).2 rfl⟩

/-- C10: a template mapping without a "body" key is treated as having the
empty body: the merge succeeds for every variable mapping, the call
returns content "", and the persisted Document has content "" and, when
"name" is also absent, title "Generated Document". -/
theorem generate_document_empty_body (s : Store) (d : DBData) (template vars : Record)
    (hdb : s.db = Option.some d) (hb : vget template "body" = Option.none) :
    pyFormat "" vars = .ok ""
    ∧ ∃ s2 : Store,
        generate_document s template vars = (.ok ⟨oidString d.counter, ""⟩, s2)
        ∧ ∃ doc : Record,
            collOf s2 "document" = collOf s "document" ++ [doc]
            ∧ vget doc "content" = Option.some (.str "")
            ∧ (vget template "name" = Option.none →
                 vget doc "title" = Option.some (.str "Generated Document")) := by
  have hb2 : (vget template "body").getD (.str "") = .str "" := by rw [hb]; rfl
  have hgen := generate_document_eq template vars hdb hb2 rfl
  refine ⟨rfl, _, hgen,
    ("_id", Value.oid d.counter) :: generatedDoc template vars "", ?_, rfl, ?_⟩
  · simp only [collOf, hdb]
    exact collOf_collInsert d.collections "document" _
  · intro hn
    simp [generatedDoc, vget, hn]

/-- Witness for C10: a template with neither "body" nor "name". -/
theorem generate_document_empty_body_witness :
    emptyStore.db = Option.some (⟨0, []⟩ : DBData)
    ∧ vget [("category", Value.str "x")] "body" = Option.none
    ∧ (pyFormat "" [] = .ok ""
      ∧ ∃ s2 : Store,
          generate_document emptyStore [("category", Value.str "x")] []
              = (.ok ⟨oidString 0, ""⟩, s2)
          ∧ ∃ doc : Record,
              collOf s2 "document" = collOf emptyStore "document" ++ [doc]
              ∧ vget doc "content" = Option.some (.str "")
              ∧ (vget [("category", Value.str "x")] "name" = Option.none →
                   vget doc "title" = Option.some (.str "Generated Document"))) :=
  ⟨rfl, rfl,
   generate_document_empty_body emptyStore ⟨0, []⟩ [("category", Value.str "x")] []
     rfl rfl⟩


/-- A generic create on a connected store, computed. -/
theorem create_item_ok (ctr : Nat) (cols : List (String × List Record))
    (coll : String) (rec : Record) :
    create_item ⟨Option.some ⟨ctr, cols⟩⟩ coll rec
      = (.ok (oidString ctr),
         ⟨Option.some ⟨ctr + 1, collInsert cols coll (("_id", Value.oid ctr) :: rec)⟩⟩) := rfl

/-- A generic list on a connected store, computed. -/
theorem list_items_ok (ctr : Nat) (cols : List (String × List Record))
    (coll : String) (limit : Nat) :
    list_items ⟨Option.some ⟨ctr, cols⟩⟩ coll (Option.some limit)
      = .ok ((((vget cols coll).getD []).take limit).map
          (fun r => vset r "_id" (.str (pyStr ((vget r "_id").getD .none))))) := rfl

/-- C4: after a generic create on any collection of a connected store
holding fewer records than the limit, listing that collection returns a
record whose non-id fields match the input and whose identifier is the
non-empty id string returned by the create; a second create returns a
distinct identifier. -/
theorem create_then_list_roundtrip (s : Store) (d : DBData) (coll : String)
    (rec : Record) (limit : Nat)
    (hdb : s.db = Option.some d) (hlen : (collOf s coll).length < limit) :
    ∃ s2 : Store,
      create_item s coll rec = (.ok (oidString d.counter), s2)
      ∧ oidString d.counter ≠ ""
      ∧ (∃ docs : List Record,
          list_items s2 coll (Option.some limit) = .ok docs
          ∧ ∃ drec ∈ docs,
              vget drec "_id" = Option.some (.str (oidString d.counter))
              ∧ ∀ k : String, k ≠ "_id" → vget drec k = vget rec k)
      ∧ (∀ rec2 : Record,
          (create_item s2 coll rec2).1 = .ok (oidString (d.counter + 1))
          ∧ oidString (d.counter + 1) ≠ oidString d.counter) := by
  obtain ⟨sdb⟩ := s
  obtain ⟨ctr, cols⟩ := d
  cases hdb
  simp only [collOf] at hlen
  refine ⟨_, create_item_ok ctr cols coll rec, oidString_ne_empty _, ?_, ?_⟩
  · refine ⟨_, list_items_ok (ctr + 1) _ coll limit, ?_⟩
    rw [collOf_collInsert]
    have htake : ((vget cols coll).getD [] ++ [("_id", Value.oid ctr) :: rec]).take limit
        = (vget cols coll).getD [] ++ [("_id", Value.oid ctr) :: rec] := by
      apply List.take_of_length_le
      rw [List.length_append]
      simp only [List.length_singleton]
      omega
    rw [htake]
    refine ⟨("_id", Value.str (oidString ctr)) :: rec, ?_, rfl, ?_⟩
    · exact List.mem_map_of_mem _ (List.mem_append_right _ (List.mem_singleton_self _))
    · intro k hk
      simp only [vget]
      rw [if_neg (fun h => hk h.symm)]
  · intro rec2
    exact ⟨rfl, fun h => absurd (oidString_injective h) (by omega)⟩

/-- Witness for C4: create then list on a fresh collection with limit 1. -/
theorem create_then_list_roundtrip_witness :
    emptyStore.db = Option.some (⟨0, []⟩ : DBData)
    ∧ (collOf emptyStore "client").length < 1
    ∧ (∃ s2 : Store,
        create_item emptyStore "client" [("name", Value.str "Acme")]
            = (.ok (oidString 0), s2)
        ∧ oidString 0 ≠ ""
        ∧ (∃ docs : List Record,
            list_items s2 "client" (Option.some 1) = .ok docs
            ∧ ∃ drec ∈ docs,
                vget drec "_id" = Option.some (.str (oidString 0))
                ∧ ∀ k : String, k ≠ "_id" →
                    vget drec k = vget [("name", Value.str "Acme")] k)
        ∧ (∀ rec2 : Record,
            (create_item s2 "client" rec2).1 = .ok (oidString (0 + 1))
            ∧ oidString (0 + 1) ≠ oidString 0)) :=
  ⟨rfl, by decide,
   create_then_list_roundtrip emptyStore ⟨0, []⟩ "client" [("name", Value.str "Acme")] 1
     rfl (by decide)⟩

/-- C6: the generic list operation defaults the limit to 50, renders every
returned record's identifier as a string, and reports a 400 carrying the
failure description when the store is unavailable. -/
theorem list_items_contract (s : Store) (coll : String) :
    list_items s coll Option.none = list_items s coll (Option.some 50)
    ∧ (∀ (limit : Option Nat) (docs : List Record),
        list_items s coll limit = .ok docs →
        ∀ dr ∈ docs, ∃ t : String, vget dr "_id" = Option.some (.str t))
    ∧ (s.db = Option.none →
        ∀ limit : Option Nat,
          list_items s coll limit = .error ⟨400, "Database not connected"⟩) := by
  refine ⟨rfl, ?_, ?_⟩
  · intro limit docs h dr hdr
    unfold list_items at h
    split at h
    · exact absurd h (by simp)
    · rename_i raw hraw
      rw [Except.ok.injEq] at h
      subst h
      obtain ⟨r, hr, rfl⟩ := List.mem_map.mp hdr
      exact ⟨_, vget_vset_self r "_id" _⟩
  · intro hdb limit
    simp only [list_items, get_documents, hdb]

/-- Witness for C6: the default limit, a rendered id, and the store-down
failure, at concrete inputs. -/
theorem list_items_contract_witness :
    list_items storeWithDoc "client" Option.none
        = list_items storeWithDoc "client" (Option.some 50)
    ∧ (list_items storeWithDoc "client" (Option.some 50)
        = .ok [[("_id", Value.str (oidString 0)), ("name", Value.str "Acme")]]
      ∧ [("_id", Value.str (oidString 0)), ("name", Value.str "Acme")]
          ∈ [[("_id", Value.str (oidString 0)), ("name", Value.str "Acme")]]
      ∧ ∃ t : String,
          vget [("_id", Value.str (oidString 0)), ("name", Value.str "Acme")] "_id"
            = Option.some (.str t))
    ∧ ((⟨Option.none⟩ : Store).db = Option.none
      ∧ list_items ⟨Option.none⟩ "client" (Option.some 7)
          = .error ⟨400, "Database not connected"⟩) :=
  ⟨(list_items_contract storeWithDoc "client").1,
   ⟨rfl, List.mem_singleton_self _,
    (list_items_contract storeWithDoc "client").2.1 (Option.some 50) _ rfl _
      (List.mem_singleton_self _)⟩,
   ⟨rfl, (list_items_contract ⟨Option.none⟩ "client").2.2 rfl (Option.some 7)⟩⟩

/-- C5: the default-template catalog ignores the store entirely and always
returns the same fixed 3 templates, each carrying exactly the fields
name, category, variables, body (in that order). -/
theorem default_templates_fixed (s : Store) :
    default_templates_route s = default_templates
    ∧ default_templates.length = 3
    ∧ ∀ t ∈ default_templates,
        t.map Prod.fst = ["name", "category", "variables", "body"] := by
  refine ⟨rfl, rfl, ?_⟩
  intro t ht
  simp only [default_templates, List.mem_cons, List.not_mem_nil, or_false] at ht
  rcases ht with rfl | rfl | rfl <;> rfl

/-- Witness for C5: the catalog as seen with a disconnected store. -/
theorem default_templates_fixed_witness :
    default_templates_route ⟨Option.none⟩ = default_templates
    ∧ default_templates.length = 3
    ∧ ∀ t ∈ default_templates,
        t.map Prod.fst = ["name", "category", "variables", "body"] :=
  default_templates_fixed ⟨Option.none⟩

/-- C7: the diagnostic endpoint is total: for every environment and store
state it returns a status object whose database field describes the state,
whose url/name flags reflect whether the configuration is set, and whose
collection sample holds at most 10 names. -/
theorem test_database_reports (env : Env) (st : DbState) :
    (test_database env st).backend = "✅ Running"
    ∧ (test_database env st).collections.length ≤ 10
    ∧ ((test_database env st).database_url = "✅ Set" ↔ env.database_url.isSome)
    ∧ ((test_database env st).database_name = "✅ Set" ↔ env.database_name.isSome)
    ∧ (match st with
       | .importError msg =>
           (test_database env st).database = "❌ Error: " ++ takeStr 50 msg
           ∧ (test_database env st).connection_status = "Not Connected"
           ∧ (test_database env st).collections = []
       | .notInitialized =>
           (test_database env st).database = "⚠️  Available but not initialized"
           ∧ (test_database env st).connection_status = "Not Connected"
           ∧ (test_database env st).collections = []
       | .connected _ (.ok names) =>
           (test_database env st).database = "✅ Connected & Working"
           ∧ (test_database env st).connection_status = "Connected"
           ∧ (test_database env st).collections = names.take 10
       | .connected _ (.error e) =>
           (test_database env st).database = "⚠️  Connected but Error: " ++ takeStr 50 e
           ∧ (test_database env st).connection_status = "Connected"
           ∧ (test_database env st).collections = []) := by
  obtain ⟨url, name⟩ := env
  have hflag : ∀ o : Option String, setFlag o = "✅ Set" ↔ o.isSome := by
    intro o
    cases o <;> simp [setFlag]
  cases st with
  | importError msg =>
      exact ⟨rfl, Nat.zero_le 10, hflag url, hflag name, rfl, rfl, rfl⟩
  | notInitialized =>
      exact ⟨rfl, Nat.zero_le 10, hflag url, hflag name, rfl, rfl, rfl⟩
  | connected nm enum =>
      cases enum with
      | ok names =>
          refine ⟨rfl, ?_, hflag url, hflag name, rfl, rfl, rfl⟩
          show (names.take 10).length ≤ 10
          rw [List.length_take]
          exact Nat.min_le_left _ _
      | error e =>
          exact ⟨rfl, Nat.zero_le 10, hflag url, hflag name, rfl, rfl, rfl⟩

/-- Witness for C7: a set url, an unset name, and a connected store whose
collection enumeration succeeds. -/
theorem test_database_reports_witness :
    (test_database ⟨Option.some "mongodb://h", Option.none⟩
        (.connected "db" (.ok ["a", "b", "c"]))).backend = "✅ Running"
    ∧ (test_database ⟨Option.some "mongodb://h", Option.none⟩
        (.connected "db" (.ok ["a", "b", "c"]))).collections.length ≤ 10
    ∧ ((test_database ⟨Option.some "mongodb://h", Option.none⟩
        (.connected "db" (.ok ["a", "b", "c"]))).database_url = "✅ Set"
        ↔ (Option.some "mongodb://h").isSome)
    ∧ ((test_database ⟨Option.some "mongodb://h", Option.none⟩
        (.connected "db" (.ok ["a", "b", "c"]))).database_name = "✅ Set"
        ↔ (Option.none : Option String).isSome)
    ∧ ((test_database ⟨Option.some "mongodb://h", Option.none⟩
        (.connected "db" (.ok ["a", "b", "c"]))).database = "✅ Connected & Working"
      ∧ (test_database ⟨Option.some "mongodb://h", Option.none⟩
        (.connected "db" (.ok ["a", "b", "c"]))).connection_status = "Connected"
      ∧ (test_database ⟨Option.some "mongodb://h", Option.none⟩
        (.connected "db" (.ok ["a", "b", "c"]))).collections = ["a", "b", "c"].take 10) :=
  test_database_reports ⟨Option.some "mongodb://h", Option.none⟩
    (.connected "db" (.ok ["a", "b", "c"]))

/-- C8: the schema endpoint returns, for each of the five declared record
kinds, its lowercase name together with the mapping over all of its
fields, and wraps an introspection failure as an error payload rather
than an HTTP failure. -/
theorem schema_overview_contract (intro : Except String Unit) :
    (∀ u : Unit, intro = .ok u →
        schema_overview intro = .ok (schemaModels.map model_info))
    ∧ (∀ e : String, intro = .error e → schema_overview intro = .err e)
    ∧ (schemaModels.map model_info).map CollectionInfo.name
        = ["client", "matter", "documenttemplate", "document", "task"]
    ∧ schemaModels.map Prod.fst
        = ["Client", "Matter", "DocumentTemplate", "Document", "Task"]
    ∧ (∀ m ∈ schemaModels, model_info m = ⟨pyLower m.1, m.2⟩)
    ∧ ((schemaModels.map model_info).map CollectionInfo.fields).map (List.map Prod.fst)
        = [["name", "email", "phone", "company_type", "jurisdiction", "founders"],
           ["client_id", "title", "status", "description", "tags"],
           ["name", "category", "variables", "body"],
           ["client_id", "matter_id", "title", "category", "content", "template_id",
            "variables"],
           ["client_id", "matter_id", "title", "status", "due_date", "assignee",
            "notes"]] := by
  refine ⟨?_, ?_, rfl, rfl, fun m _ => rfl, rfl⟩
  · intro u h
    rw [h]
    rfl
  · intro e h
    rw [h]
    rfl

/-- Witness for C8: a successful and a failing introspection outcome. -/
theorem schema_overview_contract_witness :
    ((.ok () : Except String Unit) = .ok ()
      ∧ schema_overview (.ok ()) = .ok (schemaModels.map model_info))
    ∧ ((.error "boom" : Except String Unit) = .error "boom"
      ∧ schema_overview (.error "boom") = .err "boom") :=
  ⟨⟨rfl, (schema_overview_contract (.ok ())).1 () rfl⟩,
   ⟨rfl, (schema_overview_contract (.error "boom")).2.1 "boom" rfl⟩⟩


/-- C4 counterexample: on a store whose "client" collection already holds
one record, creating a second record and then listing with limit 1 returns
only the first record: no returned record carries the new record's title
field or its identifier, so limit ≥ 1 alone does not guarantee the
round-trip. -/
theorem create_then_list_roundtrip_counterexample :
    (1 : Nat) ≥ 1
    ∧ (create_item storeWithDoc "client" [("title", Value.str "B")]).1
        = .ok (oidString 1)
    ∧ list_items (create_item storeWithDoc "client" [("title", Value.str "B")]).2
        "client" (Option.some 1)
        = .ok [[("_id", Value.str (oidString 0)), ("name", Value.str "Acme")]]
    ∧ ∀ dr ∈ [[("_id", Value.str (oidString 0)), ("name", Value.str "Acme")]],
        vget dr "title" ≠ Option.some (Value.str "B")
        ∧ vget dr "_id" ≠ Option.some (Value.str (oidString 1)) := by
  refine ⟨by decide, rfl, rfl, ?_⟩
  intro dr hdr
  rcases List.mem_singleton.mp hdr with rfl
  constructor
  · intro h
    rw [show vget [("_id", Value.str (oidString 0)), ("name", Value.str "Acme")] "title"
        = Option.none from rfl] at h
    cases h
  · intro h
    rw [show vget [("_id", Value.str (oidString 0)), ("name", Value.str "Acme")] "_id"
        = Option.some (Value.str (oidString 0)) from rfl] at h
    simp only [Option.some.injEq, Value.str.injEq] at h
    exact absurd (oidString_injective h) (by omega)

end StartupLawyer
